import Mathlib

/-!
Verification of the WiFi station connectivity engine
(managed_components/78__esp-wifi-connect/wifi_station.cc).

The development is a shallow embedding of the file: the event handlers
become pure functions from an explicit state to a new state plus a list of
emitted driver commands and notifications, and the captive-portal probe
logic becomes pure functions over the HTTP response and DNS data it
inspects.  The call to std sort in HandleScanResult is modelled
nondeterministically: any output list that is a permutation of the scan
results and is sorted by descending RSSI is a permitted outcome, which is
exactly the guarantee the C++ standard gives for an unstable sort.
-/

namespace WifiStation

/-- Subset of the wifi_auth_mode_t enum used by the station code. -/
inductive AuthMode where
  | openMode
  | wpa2Personal
  | wpa2Enterprise
  | wpa2Wpa3Enterprise
  | otherMode
  deriving DecidableEq, Repr

/-- One wifi_ap_record_t produced by the scan (ssid, rssi, authmode,
bssid, primary channel). -/
structure ApRecord where
  ssid : String
  rssi : Int
  authmode : AuthMode
  bssid : List Nat
  primary : Nat
  deriving DecidableEq, Repr

/-- One SsidItem from the SsidManager credential store. -/
structure SsidItem where
  ssid : String
  password : String
  username : String
  deriving DecidableEq, Repr

/-- A WifiApRecord candidate placed on connect_queue_. -/
structure WifiApRecord where
  ssid : String
  password : String
  username : String
  channel : Nat
  authmode : AuthMode
  bssid : List Nat
  deriving DecidableEq, Repr

/-- Which of the four std function callbacks are registered. -/
structure Callbacks where
  onScanBegin : Bool
  onConnect : Bool
  onConnected : Bool
  onDisconnected : Bool
  deriving DecidableEq, Repr

/-- The mutable member state of the WifiStation singleton. -/
structure State where
  connectQueue : List WifiApRecord
  reconnectCount : Nat
  scanMin : Nat
  scanMax : Nat
  scanCurrent : Nat
  wasConnected : Bool
  connectedBit : Bool
  stoppedBit : Bool
  scanDoneBit : Bool
  ssid : String
  password : String
  ipAddress : String
  needsPortalLogin : Bool
  pendingPortalUsername : String
  pendingPortalPassword : String
  deriving DecidableEq, Repr

/-- Driver commands and notifier callbacks emitted by the handlers. -/
inductive Command where
  | wifiConnect
  | wifiDisconnect
  | scanStart
  | scanStop
  | wifiStop
  | unregisterHandlers
  | timerStopDelete
  | timerStart (intervalMicroseconds : Nat)
  | notifyScanBegin
  | notifyConnecting (ssid : String)
  | notifyConnected (ssid : String)
  | notifyDisconnected
  | portalLogin (username : String) (password : String)
  | setConfig (ssid : String) (password : String) (pin : Option (List Nat × Nat))
  | enterpriseEnable (identity : String) (username : String) (password : String)
  | enterpriseDisable
  deriving DecidableEq, Repr

def MAX_RECONNECT_COUNT : Nat := 5

def WIFI_EVENT_CONNECTED : Nat := 1
def WIFI_EVENT_STOPPED : Nat := 2
def WIFI_EVENT_SCAN_DONE_BIT : Nat := 4

/-- The FreeRTOS event-group bits as a natural number. -/
def eventBits (s : State) : Nat :=
  (if s.connectedBit then WIFI_EVENT_CONNECTED else 0) |||
  (if s.stoppedBit then WIFI_EVENT_STOPPED else 0) |||
  (if s.scanDoneBit then WIFI_EVENT_SCAN_DONE_BIT else 0)

/-- IsConnected reads the CONNECTED bit of the event group. -/
def IsConnected (s : State) : Bool :=
  decide ((eventBits s &&& WIFI_EVENT_CONNECTED) ≠ 0)

/-- xEventGroupWaitBits on CONNECTED or STOPPED returns without consuming
its timeout as soon as one of the two bits is set. -/
def waitReturnsImmediately (s : State) : Bool :=
  decide ((eventBits s &&& (WIFI_EVENT_CONNECTED ||| WIFI_EVENT_STOPPED)) ≠ 0)

/-- WaitForConnected: wait for CONNECTED or STOPPED, then report whether
the CONNECTED bit is among the returned bits. -/
def WaitForConnected (_timeoutMs : Nat) (s : State) : Bool :=
  decide ((eventBits s &&& WIFI_EVENT_CONNECTED) ≠ 0)

/-- Stop: unregister handlers, stop and delete the timer, stop scanning,
disconnect, stop the driver, clear was_connected_ and the CONNECTED bit,
set the STOPPED bit. -/
def Stop (s : State) : State × List Command :=
  ({ s with wasConnected := false, connectedBit := false, stoppedBit := true },
   [Command.unregisterHandlers, Command.timerStopDelete, Command.scanStop,
    Command.wifiDisconnect, Command.wifiStop])

/-- SetScanIntervalRange stores both bounds in microseconds and resets the
current interval to the minimum. -/
def SetScanIntervalRange (minIntervalSeconds maxIntervalSeconds : Nat) (s : State) : State :=
  { s with scanMin := minIntervalSeconds * 1000 * 1000,
           scanMax := maxIntervalSeconds * 1000 * 1000,
           scanCurrent := minIntervalSeconds * 1000 * 1000 }

/-- UpdateScanInterval: if below the maximum, double, clamping at the
maximum. -/
def UpdateScanInterval (s : State) : State :=
  if s.scanCurrent < s.scanMax then
    let doubled := s.scanCurrent * 2
    { s with scanCurrent := if s.scanMax < doubled then s.scanMax else doubled }
  else s

/-- The descending-RSSI order required of the output of the sort call (the
comparator is rssi-greater-than, so a sorted output is pairwise
rssi-greater-or-equal). -/
def rssiGe (a b : ApRecord) : Prop := b.rssi ≤ a.rssi

/-- Strict version of the sort order. -/
def rssiGt (a b : ApRecord) : Prop := b.rssi < a.rssi

/-- Two records carry distinct signal strengths. -/
def rssiNe (a b : ApRecord) : Prop := a.rssi ≠ b.rssi

/-- A permitted outcome of the unstable std sort call on the scan results:
a permutation of the input that is sorted by descending RSSI.  The C++
standard leaves the relative order of elements with equal RSSI
unspecified. -/
def ValidSortOutput (input output : List ApRecord) : Prop :=
  List.Perm input output ∧ output.Pairwise rssiGe

/-- The find_if call over the ssid list: first credential entry whose ssid
compares equal (strcmp) to the scan record ssid. -/
def matchFor (ssidList : List SsidItem) (ap : ApRecord) : Option SsidItem :=
  ssidList.find? (fun item => ap.ssid = item.ssid)

/-- Building one queue entry from a scan record and its credential
entry. -/
def toCandidate (ap : ApRecord) (item : SsidItem) : WifiApRecord :=
  { ssid := item.ssid
    password := item.password
    username := item.username
    channel := ap.primary
    authmode := ap.authmode
    bssid := ap.bssid }

/-- The queue-building loop of HandleScanResult: walk the sorted records
and push a candidate for every record whose ssid is known. -/
def buildQueue (sortedRecords : List ApRecord) (ssidList : List SsidItem) :
    List WifiApRecord :=
  sortedRecords.filterMap (fun ap => (matchFor ssidList ap).map (toCandidate ap))

/-- Whether a scan record has a matching credential entry. -/
def hasMatch (ssidList : List SsidItem) (ap : ApRecord) : Bool :=
  (matchFor ssidList ap).isSome

/-- The candidate produced for a matching record (junk entry when there is
no match; only applied to matching records). -/
def candOf (ssidList : List SsidItem) (ap : ApRecord) : WifiApRecord :=
  match matchFor ssidList ap with
  | some item => toCandidate ap item
  | none => toCandidate ap { ssid := "", password := "", username := "" }

/-- The is_enterprise local of StartConnect: non-empty username together
with one of the two enterprise auth modes. -/
def isEnterpriseOf (ap : WifiApRecord) : Bool :=
  decide (¬ ap.username = "" ∧
    (ap.authmode = AuthMode.wpa2Enterprise ∨ ap.authmode = AuthMode.wpa2Wpa3Enterprise))

/-- The portal-candidate test of StartConnect: non-empty username and not
classified enterprise. -/
def needsPortalOf (ap : WifiApRecord) : Bool :=
  decide (¬ ap.username = "") && !isEnterpriseOf ap

/-- The station-config password of StartConnect: empty for enterprise and
for open auth, the stored password otherwise. -/
def cfgPasswordOf (ap : WifiApRecord) : String :=
  if isEnterpriseOf ap then ""
  else if ap.authmode = AuthMode.openMode then ""
  else ap.password

/-- StartConnect: on an empty queue restart the scan; otherwise pop the
head, remember ssid and password, fire the connecting callback, issue a
disconnect, reset the portal state, classify the candidate, configure
enterprise or plain credentials, set the station config, zero the retry
counter and issue the connect command. -/
def StartConnect (cb : Callbacks) (rememberBssid : Bool) (s : State) :
    State × List Command :=
  match s.connectQueue with
  | [] => (s, [Command.scanStart])
  | ap :: rest =>
    let s₁ : State := { s with connectQueue := rest, ssid := ap.ssid, password := ap.password }
    let connectActs : List Command :=
      if cb.onConnect then [Command.notifyConnecting ap.ssid] else []
    let s₂ : State :=
      { s₁ with needsPortalLogin := false, pendingPortalUsername := "",
                pendingPortalPassword := "" }
    let s₃ : State :=
      if needsPortalOf ap then
        { s₂ with needsPortalLogin := true, pendingPortalUsername := ap.username,
                  pendingPortalPassword := ap.password }
      else s₂
    let entActs : List Command :=
      if isEnterpriseOf ap then
        [Command.enterpriseEnable ap.username ap.username ap.password]
      else
        [Command.enterpriseDisable]
    let pin : Option (List Nat × Nat) :=
      if rememberBssid then some (ap.bssid, ap.channel) else none
    let s₄ : State := { s₃ with reconnectCount := 0 }
    (s₄, connectActs ++ [Command.wifiDisconnect] ++ entActs ++
         [Command.setConfig ap.ssid (cfgPasswordOf ap) pin, Command.wifiConnect])

/-- HandleScanResult: with no access points, schedule a rescan after the
current interval and double it; otherwise rebuild the queue from the
sorted records, and either schedule a rescan (no match) or start
connecting to the head candidate. -/
def HandleScanResult (cb : Callbacks) (rememberBssid : Bool)
    (sortedRecords : List ApRecord) (ssidList : List SsidItem) (s : State) :
    State × List Command :=
  if sortedRecords = [] then
    (UpdateScanInterval s, [Command.timerStart s.scanCurrent])
  else
    let q := buildQueue sortedRecords ssidList
    let s₁ : State := { s with connectQueue := q }
    if q = [] then
      (UpdateScanInterval s₁, [Command.timerStart s₁.scanCurrent])
    else
      StartConnect cb rememberBssid s₁

/-- The WIFI_EVENT_STA_DISCONNECTED branch of WifiEventHandler: clear the
CONNECTED bit, fire the disconnected callback when the station had been
connected, then either retry the same candidate (retry counter below the
limit), start the next queued candidate, or schedule a rescan and double
the interval. -/
def handleDisconnected (cb : Callbacks) (rememberBssid : Bool) (s : State) :
    State × List Command :=
  let s₀ : State := { s with connectedBit := false }
  let wasConn := s₀.wasConnected
  let s₁ : State := { s₀ with wasConnected := false }
  let notif : List Command :=
    if wasConn && cb.onDisconnected then [Command.notifyDisconnected] else []
  if s₁.reconnectCount < MAX_RECONNECT_COUNT then
    ({ s₁ with reconnectCount := s₁.reconnectCount + 1 }, notif ++ [Command.wifiConnect])
  else if s₁.connectQueue ≠ [] then
    let r := StartConnect cb rememberBssid s₁
    (r.1, notif ++ r.2)
  else
    (UpdateScanInterval s₁, notif ++ [Command.timerStart s₁.scanCurrent])

/-- IpEventHandler (IP_EVENT_STA_GOT_IP): record the address, set the
CONNECTED bit, mark was_connected_, zero the retry counter, clear the
queue, reset the interval to the minimum, fire the connected callback and
launch the portal-login task when one is pending. -/
def IpEventHandler (cb : Callbacks) (ip : String) (s : State) : State × List Command :=
  let s₁ : State :=
    { s with ipAddress := ip, connectedBit := true, wasConnected := true,
             reconnectCount := 0, connectQueue := [], scanCurrent := s.scanMin }
  let a₁ : List Command :=
    if cb.onConnected then [Command.notifyConnected s₁.ssid] else []
  let a₂ : List Command :=
    if s₁.needsPortalLogin then
      [Command.portalLogin s₁.pendingPortalUsername s₁.pendingPortalPassword]
    else []
  (s₁, a₁ ++ a₂)

/-- The radio events consumed by the two static handlers.  A scanDone
event carries the sorted scan records and the credential snapshot read
during its handling. -/
inductive Event where
  | staStart
  | scanDone (sortedRecords : List ApRecord) (ssidList : List SsidItem)
  | staDisconnected
  | gotIp (ip : String)

/-- One event-handler dispatch. -/
def WifiEventStep (cb : Callbacks) (rememberBssid : Bool) :
    Event → State → State × List Command
  | Event.staStart, s =>
    (s, [Command.scanStart] ++ (if cb.onScanBegin then [Command.notifyScanBegin] else []))
  | Event.scanDone sortedRecords ssidList, s =>
    HandleScanResult cb rememberBssid sortedRecords ssidList { s with scanDoneBit := true }
  | Event.staDisconnected, s => handleDisconnected cb rememberBssid s
  | Event.gotIp ip, s => IpEventHandler cb ip s

/-- A run of consecutive disconnect events. -/
def runDisconnects (cb : Callbacks) (rememberBssid : Bool) :
    Nat → State → State × List Command
  | 0, s => (s, [])
  | n + 1, s =>
    let r₁ := handleDisconnected cb rememberBssid s
    let r₂ := runDisconnects cb rememberBssid n r₁.1
    (r₂.1, r₁.2 ++ r₂.2)

/-- One decimal digit character, as produced by inet_ntoa. -/
def digitChar (n : Nat) : Char :=
  match n with
  | 0 => '0' | 1 => '1' | 2 => '2' | 3 => '3' | 4 => '4'
  | 5 => '5' | 6 => '6' | 7 => '7' | 8 => '8' | 9 => '9'
  | _ => '*'

/-- Decimal rendering of one octet (a value below 256). -/
def toDigits (n : Nat) : List Char :=
  if n < 10 then [digitChar n]
  else if n < 100 then [digitChar (n / 10), digitChar (n % 10)]
  else [digitChar (n / 100), digitChar (n / 10 % 10), digitChar (n % 10)]

/-- An IPv4 address as four octets. -/
structure IpAddr where
  a : Nat
  b : Nat
  c : Nat
  d : Nat
  deriving DecidableEq, Repr

/-- The dotted-decimal string inet_ntoa produces for the address. -/
def ntoaChars (ip : IpAddr) : List Char :=
  toDigits ip.a ++ '.' :: toDigits ip.b ++ '.' :: toDigits ip.c ++ '.' :: toDigits ip.d

/-- strncmp(s, p, n) == 0, on NUL-terminated strings modelled as char
lists: compare up to n characters, a shorter string differing at its
terminator. -/
def strncmpEqN : List Char → List Char → Nat → Bool
  | _, _, 0 => true
  | [], [], _ + 1 => true
  | [], _ :: _, _ + 1 => false
  | _ :: _, [], _ + 1 => false
  | a :: s, b :: t, n + 1 => a == b && strncmpEqN s t n

/-- The private-prefix test of the hijack branches: strncmp against
the literals 10. and 192.168 and 172. over the dotted-decimal string. -/
def isPrivatePre (s : List Char) : Bool :=
  strncmpEqN s ("10.".toList) 3 ||
  strncmpEqN s ("192.168".toList) 7 ||
  strncmpEqN s ("172.".toList) 4

/-- What the portal task observes of one HTTP probe. -/
structure HttpResp where
  performOk : Bool
  status : Int
  location : Option (List Char)
  contentLength : Int
  deriving DecidableEq, Repr

/-- The check_redirect lambda of the portal task, for a probe of the
given url: a 301/302 Location header is captured as the login url; a 200
on a generate_204 url is a hijack signal, answered by resolving the probe
host and synthesizing http followed by the address and /login when the
address has a private prefix; a 200 on the captive.apple.com url applies
the body-length heuristic first.  The result is the determined login url
(when found) and the hijack flag. -/
def checkRedirect (url : List Char) (resp : HttpResp)
    (dnsMiui dnsApple : Option IpAddr) : Option (List Char) × Bool :=
  if resp.performOk then
    if resp.status = 302 ∨ resp.status = 301 then
      match resp.location with
      | some loc => (some loc, false)
      | none => (none, false)
    else if resp.status = 200 then
      if "generate_204".toList <:+: url then
        match dnsMiui with
        | some ip =>
          let sAddr := ntoaChars ip
          if isPrivatePre sAddr then
            (some ("http://".toList ++ sAddr ++ "/login".toList), true)
          else (none, true)
        | none => (none, true)
      else if "captive.apple.com".toList <:+: url then
        if 0 < resp.contentLength ∧ resp.contentLength < 200 then (none, false)
        else
          match dnsApple with
          | some ip =>
            let sAddr := ntoaChars ip
            if isPrivatePre sAddr then
              (some ("http://".toList ++ sAddr ++ "/login".toList), true)
            else (none, true)
          | none => (none, true)
      else (none, false)
    else (none, false)
  else (none, false)

/-- The POST-url normalization of the portal task: when the login url
does not contain the substring login, append login, with a preceding
slash unless the url already ends in one. -/
def postUrlOf (loginUrl : List Char) : List Char :=
  if "login".toList <:+: loginUrl then loginUrl
  else if loginUrl.getLast? = some '/' then loginUrl ++ "login".toList
  else loginUrl ++ "/login".toList

/-- The login POST request assembled by the portal task. -/
structure PostRequest where
  url : List Char
  contentType : String
  body : List Char
  deriving DecidableEq, Repr

/-- The POST issued when a login url was determined: normalized url,
form content type, and the body user=...&pass=... built by string
concatenation. -/
def portalPost (loginUrl : List Char) (user pass : List Char) : PostRequest :=
  { url := postUrlOf loginUrl
    contentType := "application/x-www-form-urlencoded"
    body := "user=".toList ++ user ++ "&pass=".toList ++ pass }

/-- The first probe url of the portal task. -/
def miuiProbeUrl : List Char := "http://connect.rom.miui.com/generate_204".toList

/-- Modelled from the spec: the Access-Point Ranker as the spec words it,
with a stable descending sort (ties kept in scan order).  Used only to
compare the claimed queue with the queue the code can produce. -/
def insertDesc (a : ApRecord) : List ApRecord → List ApRecord
  | [] => [a]
  | b :: t => if a.rssi < b.rssi then b :: insertDesc a t else a :: b :: t

/-- Modelled from the spec: stable insertion sort by descending RSSI. -/
def stableSortDesc : List ApRecord → List ApRecord
  | [] => []
  | a :: t => insertDesc a (stableSortDesc t)

/-- Modelled from the spec: the queue the claim predicts, with ties
between equal-strength results kept in scan order. -/
def specStableRankQueue (input : List ApRecord) (ssidList : List SsidItem) :
    List WifiApRecord :=
  buildQueue (stableSortDesc input) ssidList

/-- Modelled from the spec: membership of an address in one of the
private ranges 10.0.0.0/8, 172.16.0.0/12, 192.168.0.0/16. -/
def specPrivateRange (ip : IpAddr) : Prop :=
  ip.a = 10 ∨ (ip.a = 172 ∧ 16 ≤ ip.b ∧ ip.b ≤ 31) ∨ (ip.a = 192 ∧ ip.b = 168)

instance (ip : IpAddr) : Decidable (specPrivateRange ip) := by
  unfold specPrivateRange; infer_instance

/-- GetRssi: zero when not connected or when the ap-info query fails. -/
def GetRssi (s : State) (apInfo : Option ApRecord) : Int × State :=
  if IsConnected s = false then (0, s)
  else
    match apInfo with
    | some info => (info.rssi, s)
    | none => (0, s)

/-- GetChannel: zero when not connected or when the ap-info query
fails. -/
def GetChannel (s : State) (apInfo : Option ApRecord) : Nat × State :=
  if IsConnected s = false then (0, s)
  else
    match apInfo with
    | some info => (info.primary, s)
    | none => (0, s)

/-- A concrete state used by witnesses: the manager right after Start with
a ten-second minimum and a sixty-second maximum backoff. -/
def initState : State :=
  { connectQueue := [], reconnectCount := 0,
    scanMin := 10000000, scanMax := 60000000, scanCurrent := 10000000,
    wasConnected := false, connectedBit := false, stoppedBit := false,
    scanDoneBit := false, ssid := "", password := "", ipAddress := "",
    needsPortalLogin := false, pendingPortalUsername := "",
    pendingPortalPassword := "" }

/-- All four callbacks registered. -/
def cbAll : Callbacks :=
  { onScanBegin := true, onConnect := true, onConnected := true, onDisconnected := true }

/-- The disconnect notification emitted by the disconnected branch. -/
def disconnectNotif (cb : Callbacks) (s : State) : List Command :=
  if s.wasConnected && cb.onDisconnected then [Command.notifyDisconnected] else []

/-- Predicate for the wifi connect command. -/
def isConnectCmd : Command → Bool
  | Command.wifiConnect => true
  | _ => false

/-- Predicate for the set-config command. -/
def isSetConfigCmd : Command → Bool
  | Command.setConfig _ _ _ => true
  | _ => false

/-- Predicate for the timer-start command. -/
def isTimerStartCmd : Command → Bool
  | Command.timerStart _ => true
  | _ => false

/-- A concrete open-auth candidate carrying portal credentials. -/
def portalAp : WifiApRecord :=
  { ssid := "CafeWifi", password := "", username := "guest", channel := 1,
    authmode := AuthMode.openMode, bssid := [0, 0, 0, 0, 0, 0] }

/-- A concrete enterprise-auth candidate with an empty username. -/
def entNoUserAp : WifiApRecord :=
  { ssid := "EduNet", password := "pw", username := "", channel := 1,
    authmode := AuthMode.wpa2Enterprise, bssid := [0, 0, 0, 0, 0, 0] }

/-- Predicate for the enterprise-enable command. -/
def isEntEnableCmd : Command → Bool
  | Command.enterpriseEnable _ _ _ => true
  | _ => false

/-- Ssid list used by the ranker counterexample and witness, holding two
known networks. -/
def cexList : List SsidItem :=
  [{ ssid := "A", password := "pa", username := "" },
   { ssid := "B", password := "pb", username := "" }]

/-- First scan record of the counterexample (scan order first). -/
def cexR1 : ApRecord :=
  { ssid := "A", rssi := -50, authmode := AuthMode.openMode,
    bssid := [1, 1, 1, 1, 1, 1], primary := 1 }

/-- Second scan record of the counterexample, with the same RSSI. -/
def cexR2 : ApRecord :=
  { ssid := "B", rssi := -50, authmode := AuthMode.openMode,
    bssid := [2, 2, 2, 2, 2, 2], primary := 6 }

instance : DecidableRel rssiGe := fun a b => inferInstanceAs (Decidable (b.rssi ≤ a.rssi))

instance : DecidableRel rssiGt := fun a b => inferInstanceAs (Decidable (b.rssi < a.rssi))

instance : DecidableRel rssiNe := fun a b => inferInstanceAs (Decidable (a.rssi ≠ b.rssi))

/- ------------------------------------------------------------------ -/
/- Helper lemmas                                                      -/
/- ------------------------------------------------------------------ -/

theorem isConnected_eq_connectedBit (s : State) : IsConnected s = s.connectedBit := by
  obtain ⟨q, rc, mn, mx, cur, wc, cb, sb, sd, ss, pw, ip, np, pu, pp⟩ := s
  simp only [IsConnected, eventBits, WIFI_EVENT_CONNECTED, WIFI_EVENT_STOPPED,
    WIFI_EVENT_SCAN_DONE_BIT]
  cases cb <;> cases sb <;> cases sd <;> decide

theorem updateScanInterval_fields (s : State) :
    (UpdateScanInterval s).scanMin = s.scanMin ∧
    (UpdateScanInterval s).scanMax = s.scanMax ∧
    (UpdateScanInterval s).connectQueue = s.connectQueue ∧
    (UpdateScanInterval s).reconnectCount = s.reconnectCount ∧
    (UpdateScanInterval s).ssid = s.ssid := by
  unfold UpdateScanInterval
  split <;> simp

theorem updateScanInterval_le (s : State) (h : s.scanCurrent ≤ s.scanMax) :
    (UpdateScanInterval s).scanCurrent ≤ s.scanMax := by
  unfold UpdateScanInterval
  split
  · simp only
    split <;> omega
  · simpa using h

theorem updateScanInterval_mono (s : State) :
    s.scanCurrent ≤ (UpdateScanInterval s).scanCurrent := by
  unfold UpdateScanInterval
  split
  · simp only
    split <;> omega
  · simp

theorem updateScanInterval_eq_min (s : State) (h : s.scanCurrent ≤ s.scanMax) :
    (UpdateScanInterval s).scanCurrent = min (2 * s.scanCurrent) s.scanMax := by
  unfold UpdateScanInterval
  split
  · simp only
    split <;> (rw [Nat.min_def]; split <;> omega)
  · rw [Nat.min_def]
    split <;> omega

theorem startConnect_scan_fields (cb : Callbacks) (rb : Bool) (s : State) :
    (StartConnect cb rb s).1.scanCurrent = s.scanCurrent ∧
    (StartConnect cb rb s).1.scanMin = s.scanMin ∧
    (StartConnect cb rb s).1.scanMax = s.scanMax := by
  unfold StartConnect
  cases s.connectQueue with
  | nil => simp
  | cons ap rest =>
    simp only
    split <;> simp

theorem handleScanResult_eq_empty (cb : Callbacks) (rb : Bool)
    (ssidList : List SsidItem) (s : State) :
    HandleScanResult cb rb [] ssidList s =
      (UpdateScanInterval s, [Command.timerStart s.scanCurrent]) := by
  unfold HandleScanResult
  simp

theorem handleScanResult_eq_nomatch (cb : Callbacks) (rb : Bool)
    (sortedRecords : List ApRecord) (ssidList : List SsidItem) (s : State)
    (h₁ : sortedRecords ≠ []) (h₂ : buildQueue sortedRecords ssidList = []) :
    HandleScanResult cb rb sortedRecords ssidList s =
      (UpdateScanInterval { s with connectQueue := ([] : List WifiApRecord) },
       [Command.timerStart s.scanCurrent]) := by
  unfold HandleScanResult
  rw [if_neg h₁]
  simp only [h₂]
  simp

theorem handleScanResult_eq_connect (cb : Callbacks) (rb : Bool)
    (sortedRecords : List ApRecord) (ssidList : List SsidItem) (s : State)
    (h₁ : sortedRecords ≠ []) (h₂ : buildQueue sortedRecords ssidList ≠ []) :
    HandleScanResult cb rb sortedRecords ssidList s =
      StartConnect cb rb { s with connectQueue := buildQueue sortedRecords ssidList } := by
  unfold HandleScanResult
  rw [if_neg h₁]
  simp only
  rw [if_neg h₂]

theorem handleDisconnected_eq_retry (cb : Callbacks) (rb : Bool) (s : State)
    (h : s.reconnectCount < MAX_RECONNECT_COUNT) :
    handleDisconnected cb rb s =
      ({ s with connectedBit := false, wasConnected := false,
                reconnectCount := s.reconnectCount + 1 },
       disconnectNotif cb s ++ [Command.wifiConnect]) := by
  unfold handleDisconnected disconnectNotif
  rw [if_pos h]

theorem handleDisconnected_eq_next (cb : Callbacks) (rb : Bool) (s : State)
    (h₁ : ¬ s.reconnectCount < MAX_RECONNECT_COUNT) (h₂ : s.connectQueue ≠ []) :
    handleDisconnected cb rb s =
      ((StartConnect cb rb { s with connectedBit := false, wasConnected := false }).1,
       disconnectNotif cb s ++
         (StartConnect cb rb { s with connectedBit := false, wasConnected := false }).2) := by
  unfold handleDisconnected disconnectNotif
  rw [if_neg h₁]
  simp only [ne_eq, h₂, not_false_eq_true, if_pos]

theorem handleDisconnected_eq_rescan (cb : Callbacks) (rb : Bool) (s : State)
    (h₁ : ¬ s.reconnectCount < MAX_RECONNECT_COUNT) (h₂ : s.connectQueue = []) :
    handleDisconnected cb rb s =
      (UpdateScanInterval { s with connectedBit := false, wasConnected := false },
       disconnectNotif cb s ++ [Command.timerStart s.scanCurrent]) := by
  unfold handleDisconnected disconnectNotif
  rw [if_neg h₁]
  simp only [ne_eq, h₂, not_true_eq_false, if_neg, reduceIte]

theorem startConnect_cons_eq (cb : Callbacks) (rb : Bool) (s : State)
    (ap : WifiApRecord) (rest : List WifiApRecord) (h : s.connectQueue = ap :: rest) :
    StartConnect cb rb s =
      ({ s with connectQueue := rest, ssid := ap.ssid, password := ap.password,
                needsPortalLogin := needsPortalOf ap,
                pendingPortalUsername := if needsPortalOf ap then ap.username else "",
                pendingPortalPassword := if needsPortalOf ap then ap.password else "",
                reconnectCount := 0 },
       (if cb.onConnect then [Command.notifyConnecting ap.ssid] else []) ++
       [Command.wifiDisconnect] ++
       (if isEnterpriseOf ap then
          [Command.enterpriseEnable ap.username ap.username ap.password]
        else [Command.enterpriseDisable]) ++
       [Command.setConfig ap.ssid (cfgPasswordOf ap)
          (if rb then some (ap.bssid, ap.channel) else none),
        Command.wifiConnect]) := by
  unfold StartConnect
  rw [h]
  simp only
  cases hp : needsPortalOf ap <;> simp [hp]

theorem disconnectNotif_counts (cb : Callbacks) (s : State) :
    (disconnectNotif cb s).countP isConnectCmd = 0 ∧
    (disconnectNotif cb s).countP isSetConfigCmd = 0 ∧
    (disconnectNotif cb s).countP isTimerStartCmd = 0 := by
  unfold disconnectNotif
  split <;> simp [isConnectCmd, isSetConfigCmd, isTimerStartCmd, List.countP_cons]

theorem runDisconnects_retry_spec (cb : Callbacks) (rb : Bool) :
    ∀ (k : Nat) (s : State), s.reconnectCount + k ≤ MAX_RECONNECT_COUNT →
      ((runDisconnects cb rb k s).1.reconnectCount = s.reconnectCount + k ∧
       (runDisconnects cb rb k s).1.connectQueue = s.connectQueue ∧
       (runDisconnects cb rb k s).1.ssid = s.ssid ∧
       (runDisconnects cb rb k s).1.scanCurrent = s.scanCurrent) ∧
      ((runDisconnects cb rb k s).2.countP isConnectCmd = k ∧
       (runDisconnects cb rb k s).2.countP isSetConfigCmd = 0 ∧
       (runDisconnects cb rb k s).2.countP isTimerStartCmd = 0) := by
  intro k
  induction k with
  | zero =>
    intro s h
    simp [runDisconnects]
  | succ n ih =>
    intro s h
    have hlt : s.reconnectCount < MAX_RECONNECT_COUNT := by
      unfold MAX_RECONNECT_COUNT at *
      omega
    have hstep := handleDisconnected_eq_retry cb rb s hlt
    have hrun : runDisconnects cb rb (n + 1) s =
        ((runDisconnects cb rb n (handleDisconnected cb rb s).1).1,
         (handleDisconnected cb rb s).2 ++
           (runDisconnects cb rb n (handleDisconnected cb rb s).1).2) := rfl
    rw [hrun, hstep]
    have hih := ih { s with connectedBit := false, wasConnected := false,
                            reconnectCount := s.reconnectCount + 1 }
      (by simp only; omega)
    have hnotif := disconnectNotif_counts cb s
    refine ⟨⟨?_, ?_, ?_, ?_⟩, ?_, ?_, ?_⟩
    · rw [hih.1.1]; simp only; omega
    · rw [hih.1.2.1]
    · rw [hih.1.2.2.1]
    · rw [hih.1.2.2.2]
    · simp only [List.countP_append]
      rw [hih.2.1, hnotif.1]
      simp [isConnectCmd, List.countP_cons]
      omega
    · simp only [List.countP_append]
      rw [hih.2.2.1, hnotif.2.1]
      simp [isSetConfigCmd, List.countP_cons]
    · simp only [List.countP_append]
      rw [hih.2.2.2, hnotif.2.2]
      simp [isTimerStartCmd, List.countP_cons]

theorem runDisconnects_add (cb : Callbacks) (rb : Bool) :
    ∀ (m n : Nat) (s : State),
      runDisconnects cb rb (m + n) s =
        ((runDisconnects cb rb n (runDisconnects cb rb m s).1).1,
         (runDisconnects cb rb m s).2 ++
           (runDisconnects cb rb n (runDisconnects cb rb m s).1).2) := by
  intro m
  induction m with
  | zero =>
    intro n s
    simp [runDisconnects]
  | succ p ih =>
    intro n s
    have h₁ : p + 1 + n = (p + n) + 1 := by omega
    rw [h₁]
    have hrun : runDisconnects cb rb ((p + n) + 1) s =
        ((runDisconnects cb rb (p + n) (handleDisconnected cb rb s).1).1,
         (handleDisconnected cb rb s).2 ++
           (runDisconnects cb rb (p + n) (handleDisconnected cb rb s).1).2) := rfl
    rw [hrun, ih n (handleDisconnected cb rb s).1]
    have hrun₂ : runDisconnects cb rb (p + 1) s =
        ((runDisconnects cb rb p (handleDisconnected cb rb s).1).1,
         (handleDisconnected cb rb s).2 ++
           (runDisconnects cb rb p (handleDisconnected cb rb s).1).2) := rfl
    rw [hrun₂]
    simp [List.append_assoc]

theorem startConnect_cons_counts (cb : Callbacks) (rb : Bool) (s : State)
    (ap : WifiApRecord) (rest : List WifiApRecord) (h : s.connectQueue = ap :: rest) :
    (StartConnect cb rb s).2.countP isConnectCmd = 1 ∧
    (StartConnect cb rb s).2.countP isSetConfigCmd = 1 ∧
    (StartConnect cb rb s).2.countP isTimerStartCmd = 0 := by
  rw [startConnect_cons_eq cb rb s ap rest h]
  cases hcb : cb.onConnect <;> cases he : isEnterpriseOf ap <;>
    simp [isConnectCmd, isSetConfigCmd, isTimerStartCmd, List.countP_cons,
      List.countP_append]

/-- C2: starting from a fresh connect attempt (retry counter zero), five
consecutive disconnect events produce exactly five reconnect commands to
the same candidate (no new station config is written, the queue and the
current ssid do not move), and the sixth disconnect event advances: when
the queue holds a next candidate, it is popped, one station config write
and its connect command are issued and the retry counter restarts at
zero; when the queue is empty, no reconnect is issued and a rescan timer
is armed with the current backoff interval instead. -/
theorem retry_limit_behavior (cb : Callbacks) (rb : Bool) (s : State)
    (h0 : s.reconnectCount = 0) :
    ((runDisconnects cb rb 5 s).2.countP isConnectCmd = 5 ∧
     (runDisconnects cb rb 5 s).2.countP isSetConfigCmd = 0 ∧
     (runDisconnects cb rb 5 s).1.connectQueue = s.connectQueue ∧
     (runDisconnects cb rb 5 s).1.ssid = s.ssid ∧
     (runDisconnects cb rb 5 s).1.reconnectCount = 5) ∧
    (∀ ap rest, s.connectQueue = ap :: rest →
      (runDisconnects cb rb 6 s).1.connectQueue = rest ∧
      (runDisconnects cb rb 6 s).1.ssid = ap.ssid ∧
      (runDisconnects cb rb 6 s).1.reconnectCount = 0 ∧
      (runDisconnects cb rb 6 s).2.countP isConnectCmd = 6 ∧
      (runDisconnects cb rb 6 s).2.countP isSetConfigCmd = 1) ∧
    (s.connectQueue = [] →
      (runDisconnects cb rb 6 s).2.countP isConnectCmd = 5 ∧
      (runDisconnects cb rb 6 s).2.countP isSetConfigCmd = 0 ∧
      Command.timerStart s.scanCurrent ∈ (runDisconnects cb rb 6 s).2) := by
  have hle : s.reconnectCount + 5 ≤ MAX_RECONNECT_COUNT := by
    rw [h0]; decide
  have h5 := runDisconnects_retry_spec cb rb 5 s hle
  have hcount5 : (runDisconnects cb rb 5 s).1.reconnectCount = 5 := by
    rw [h5.1.1, h0]
  have hnot5 : ¬ (runDisconnects cb rb 5 s).1.reconnectCount < MAX_RECONNECT_COUNT := by
    rw [hcount5]; decide
  have h6eq : (6 : Nat) = 5 + 1 := rfl
  have hadd := runDisconnects_add cb rb 5 1 s
  have hone : ∀ t : State, runDisconnects cb rb 1 t =
      ((handleDisconnected cb rb t).1, (handleDisconnected cb rb t).2 ++ []) := by
    intro t; rfl
  refine ⟨⟨h5.2.1, h5.2.2.1, h5.1.2.1, h5.1.2.2.1, hcount5⟩, ?_, ?_⟩
  · intro ap rest hq
    have hq₅ : (runDisconnects cb rb 5 s).1.connectQueue = ap :: rest := by
      rw [h5.1.2.1, hq]
    have hnext := handleDisconnected_eq_next cb rb (runDisconnects cb rb 5 s).1 hnot5
      (by rw [hq₅]; simp)
    have hq₅x : ({ (runDisconnects cb rb 5 s).1 with
        connectedBit := false, wasConnected := false } : State).connectQueue = ap :: rest := hq₅
    have hsc := startConnect_cons_eq cb rb
      { (runDisconnects cb rb 5 s).1 with connectedBit := false, wasConnected := false }
      ap rest hq₅x
    have hsccnt := startConnect_cons_counts cb rb
      { (runDisconnects cb rb 5 s).1 with connectedBit := false, wasConnected := false }
      ap rest hq₅x
    have hnotif := disconnectNotif_counts cb (runDisconnects cb rb 5 s).1
    rw [h6eq, hadd, hone]
    refine ⟨?_, ?_, ?_, ?_, ?_⟩
    · simp only [hnext, hsc]
    · simp only [hnext, hsc]
    · simp only [hnext, hsc]
    · simp only [hnext, List.countP_append, List.countP_nil]
      rw [h5.2.1, hnotif.1, hsccnt.1]
    · simp only [hnext, List.countP_append, List.countP_nil]
      rw [h5.2.2.1, hnotif.2.1, hsccnt.2.1]
  · intro hq
    have hq₅ : (runDisconnects cb rb 5 s).1.connectQueue = [] := by
      rw [h5.1.2.1, hq]
    have hresc := handleDisconnected_eq_rescan cb rb (runDisconnects cb rb 5 s).1 hnot5 hq₅
    have hnotif := disconnectNotif_counts cb (runDisconnects cb rb 5 s).1
    rw [h6eq, hadd, hone]
    refine ⟨?_, ?_, ?_⟩
    · simp only [hresc, List.countP_append, List.countP_nil]
      rw [h5.2.1, hnotif.1]
      simp [isConnectCmd, List.countP_cons]
    · simp only [hresc, List.countP_append, List.countP_nil]
      rw [h5.2.2.1, hnotif.2.1]
      simp [isSetConfigCmd, List.countP_cons]
    · simp only [hresc]
      have hscan : (runDisconnects cb rb 5 s).1.scanCurrent = s.scanCurrent := h5.1.2.2.2
      rw [hscan]
      simp [List.mem_append]

/-- C2 witness: five disconnects from a fresh attempt with an empty
queue, then the sixth schedules the rescan timer. -/
theorem retry_limit_behavior_witness :
    (runDisconnects cbAll false 5 initState).2.countP isConnectCmd = 5 ∧
    Command.timerStart initState.scanCurrent ∈ (runDisconnects cbAll false 6 initState).2 := by
  have h := retry_limit_behavior cbAll false initState rfl
  exact ⟨h.1.1, (h.2.2 rfl).2.2⟩

/-- C3: in every transition of the event handlers, the backoff interval
never exceeds the configured maximum, never decreases except through the
reset to the configured minimum performed by the got-IP handler, and an
unproductive scan cycle doubles it clamped to the maximum. -/
theorem backoff_invariant (cb : Callbacks) (rb : Bool) (e : Event) (s : State)
    (hcur : s.scanCurrent ≤ s.scanMax) (hmin : s.scanMin ≤ s.scanMax) :
    (WifiEventStep cb rb e s).1.scanMax = s.scanMax ∧
    (WifiEventStep cb rb e s).1.scanMin = s.scanMin ∧
    (WifiEventStep cb rb e s).1.scanCurrent ≤ s.scanMax ∧
    (s.scanCurrent ≤ (WifiEventStep cb rb e s).1.scanCurrent ∨
      ∃ ip, e = Event.gotIp ip ∧ (WifiEventStep cb rb e s).1.scanCurrent = s.scanMin) ∧
    (∀ sortedRecords ssidList, e = Event.scanDone sortedRecords ssidList →
      buildQueue sortedRecords ssidList = [] →
      (WifiEventStep cb rb e s).1.scanCurrent = min (2 * s.scanCurrent) s.scanMax) := by
  cases e with
  | staStart =>
    refine ⟨rfl, rfl, hcur, Or.inl le_rfl, ?_⟩
    intro sr sl h
    exact absurd h (by simp)
  | scanDone sortedRecords ssidList =>
    have hs₁ : (WifiEventStep cb rb (Event.scanDone sortedRecords ssidList) s) =
        HandleScanResult cb rb sortedRecords ssidList { s with scanDoneBit := true } := rfl
    rw [hs₁]
    by_cases hempty : sortedRecords = []
    · subst hempty
      rw [handleScanResult_eq_empty]
      have h₁ := updateScanInterval_fields { s with scanDoneBit := true }
      have h₂ := updateScanInterval_le { s with scanDoneBit := true } hcur
      have h₃ := updateScanInterval_mono { s with scanDoneBit := true }
      have h₄ := updateScanInterval_eq_min { s with scanDoneBit := true } hcur
      refine ⟨h₁.2.1, h₁.1, h₂, Or.inl h₃, ?_⟩
      intro sr sl heq hq
      cases heq
      exact h₄
    · by_cases hq : buildQueue sortedRecords ssidList = []
      · rw [handleScanResult_eq_nomatch cb rb sortedRecords ssidList _ hempty hq]
        have h₁ := updateScanInterval_fields
          { s with scanDoneBit := true, connectQueue := ([] : List WifiApRecord) }
        have h₂ := updateScanInterval_le
          { s with scanDoneBit := true, connectQueue := ([] : List WifiApRecord) } hcur
        have h₃ := updateScanInterval_mono
          { s with scanDoneBit := true, connectQueue := ([] : List WifiApRecord) }
        have h₄ := updateScanInterval_eq_min
          { s with scanDoneBit := true, connectQueue := ([] : List WifiApRecord) } hcur
        refine ⟨h₁.2.1, h₁.1, h₂, Or.inl h₃, ?_⟩
        intro sr sl heq hq₂
        cases heq
        exact h₄
      · rw [handleScanResult_eq_connect cb rb sortedRecords ssidList _ hempty hq]
        have hpres := startConnect_scan_fields cb rb
          { s with scanDoneBit := true, connectQueue := buildQueue sortedRecords ssidList }
        refine ⟨hpres.2.2, hpres.2.1, ?_, Or.inl ?_, ?_⟩
        · rw [hpres.1]; exact hcur
        · rw [hpres.1]
        · intro sr sl heq hq₂
          cases heq
          exact absurd hq₂ hq
  | staDisconnected =>
    have hstep : (WifiEventStep cb rb Event.staDisconnected s) = handleDisconnected cb rb s := rfl
    rw [hstep]
    by_cases hrc : s.reconnectCount < MAX_RECONNECT_COUNT
    · rw [handleDisconnected_eq_retry cb rb s hrc]
      refine ⟨rfl, rfl, hcur, Or.inl le_rfl, ?_⟩
      intro sr sl h
      exact absurd h (by simp)
    · by_cases hq : s.connectQueue = []
      · rw [handleDisconnected_eq_rescan cb rb s hrc hq]
        have h₁ := updateScanInterval_fields { s with connectedBit := false, wasConnected := false }
        have h₂ := updateScanInterval_le { s with connectedBit := false, wasConnected := false } hcur
        have h₃ := updateScanInterval_mono { s with connectedBit := false, wasConnected := false }
        refine ⟨h₁.2.1, h₁.1, h₂, Or.inl h₃, ?_⟩
        intro sr sl h
        exact absurd h (by simp)
      · rw [handleDisconnected_eq_next cb rb s hrc hq]
        have hpres := startConnect_scan_fields cb rb
          { s with connectedBit := false, wasConnected := false }
        refine ⟨hpres.2.2, hpres.2.1, ?_, Or.inl ?_, ?_⟩
        · rw [hpres.1]; exact hcur
        · rw [hpres.1]
        · intro sr sl h
          exact absurd h (by simp)
  | gotIp ip =>
    refine ⟨rfl, rfl, hmin, Or.inr ⟨ip, rfl, rfl⟩, ?_⟩
    intro sr sl h
    exact absurd h (by simp)

/-- C3 witness: the invariant instantiated on a concrete unproductive
scan cycle from the initial state. -/
theorem backoff_invariant_witness :
    (WifiEventStep cbAll false (Event.scanDone [] []) initState).1.scanCurrent ≤
      initState.scanMax ∧
    (WifiEventStep cbAll false (Event.scanDone [] []) initState).1.scanCurrent =
      min (2 * initState.scanCurrent) initState.scanMax := by
  have h := backoff_invariant cbAll false (Event.scanDone [] []) initState
    (by decide) (by decide)
  exact ⟨h.2.2.1, h.2.2.2.2 [] [] rfl rfl⟩

/-- C4: after the got-IP handler runs, the candidate queue is empty, the
retry counter is zero, the backoff interval equals the configured
minimum, the was-previously-connected flag is set, the connected status
is set, and the connected notification carrying the current ssid was
fired. -/
theorem got_ip_postconditions (cb : Callbacks) (ip : String) (s : State)
    (h : cb.onConnected = true) :
    (IpEventHandler cb ip s).1.connectQueue = [] ∧
    (IpEventHandler cb ip s).1.reconnectCount = 0 ∧
    (IpEventHandler cb ip s).1.scanCurrent = s.scanMin ∧
    (IpEventHandler cb ip s).1.wasConnected = true ∧
    IsConnected (IpEventHandler cb ip s).1 = true ∧
    Command.notifyConnected s.ssid ∈ (IpEventHandler cb ip s).2 := by
  unfold IpEventHandler
  simp [h, isConnected_eq_connectedBit]

/-- C4 witness: the postconditions at a concrete got-IP event. -/
theorem got_ip_postconditions_witness :
    (IpEventHandler cbAll "192.168.4.2" initState).1.connectQueue = [] ∧
    (IpEventHandler cbAll "192.168.4.2" initState).1.reconnectCount = 0 ∧
    Command.notifyConnected "" ∈ (IpEventHandler cbAll "192.168.4.2" initState).2 := by
  have h := got_ip_postconditions cbAll "192.168.4.2" initState rfl
  exact ⟨h.1, h.2.1, h.2.2.2.2.2⟩

theorem isEnterpriseOf_eq_true_iff (ap : WifiApRecord) :
    isEnterpriseOf ap = true ↔
      (¬ ap.username = "" ∧
       (ap.authmode = AuthMode.wpa2Enterprise ∨ ap.authmode = AuthMode.wpa2Wpa3Enterprise)) := by
  simp [isEnterpriseOf]

theorem needsPortalOf_eq_true_iff (ap : WifiApRecord) :
    needsPortalOf ap = true ↔
      (¬ ap.username = "" ∧
       ¬ (ap.authmode = AuthMode.wpa2Enterprise ∨ ap.authmode = AuthMode.wpa2Wpa3Enterprise)) := by
  simp [needsPortalOf, isEnterpriseOf]
  tauto

theorem mem_ipEventHandler_portal (cb : Callbacks) (ip : String) (s : State)
    (u p : String) :
    (Command.portalLogin u p ∈ (IpEventHandler cb ip s).2) ↔
      (s.needsPortalLogin = true ∧ u = s.pendingPortalUsername ∧
       p = s.pendingPortalPassword) := by
  unfold IpEventHandler
  simp only
  cases hc : cb.onConnected <;> cases hn : s.needsPortalLogin <;>
    simp [hc, hn, List.mem_append]

/-- C5: the portal-login background task is launched by the got-IP
handler after connecting to a candidate if and only if that candidate has
a non-empty username and an auth mode that is neither WPA2-enterprise nor
WPA2-WPA3-enterprise, and it is launched with exactly that candidate's
username and password. -/
theorem portal_gating_iff (cb : Callbacks) (rb : Bool) (ip : String) (s : State)
    (ap : WifiApRecord) (rest : List WifiApRecord) (h : s.connectQueue = ap :: rest)
    (u p : String) :
    (Command.portalLogin u p ∈ (IpEventHandler cb ip (StartConnect cb rb s).1).2) ↔
      (¬ ap.username = "" ∧
       ¬ (ap.authmode = AuthMode.wpa2Enterprise ∨ ap.authmode = AuthMode.wpa2Wpa3Enterprise) ∧
       u = ap.username ∧ p = ap.password) := by
  rw [mem_ipEventHandler_portal]
  rw [startConnect_cons_eq cb rb s ap rest h]
  simp only
  by_cases hu : ap.username = ""
  · have hnp : needsPortalOf ap = false := by simp [needsPortalOf, hu]
    simp [hnp, hu]
  · by_cases he : ap.authmode = AuthMode.wpa2Enterprise ∨ ap.authmode = AuthMode.wpa2Wpa3Enterprise
    · have hnp : needsPortalOf ap = false := by
        simp [needsPortalOf, isEnterpriseOf, hu, he]
      simp [hnp, hu, he]
    · have hnp : needsPortalOf ap = true := by
        simp [needsPortalOf, isEnterpriseOf, hu, he]
      simp [hnp, hu, he]

/-- C5 witness: the portal task is launched with the stored username and
password after joining the open network with a stored username. -/
theorem portal_gating_iff_witness :
    Command.portalLogin "guest" "" ∈
      (IpEventHandler cbAll "10.0.0.2"
        (StartConnect cbAll false { initState with connectQueue := [portalAp] }).1).2 :=
  (portal_gating_iff cbAll false "10.0.0.2"
      { initState with connectQueue := [portalAp] } portalAp [] rfl "guest" "").mpr
    ⟨by decide, by decide, rfl, rfl⟩

/-- C8 counterexample: the claim states a candidate is classified
enterprise exactly when its auth mode is one of the two enterprise modes,
but the code additionally requires a non-empty username: a candidate with
WPA2-enterprise auth and an empty username is popped with enterprise auth
disabled and no enterprise-enable command issued. -/
theorem enterprise_classify_cex :
    entNoUserAp.authmode = AuthMode.wpa2Enterprise ∧
    isEnterpriseOf entNoUserAp = false ∧
    Command.enterpriseDisable ∈
      (StartConnect cbAll false { initState with connectQueue := [entNoUserAp] }).2 ∧
    (StartConnect cbAll false
        { initState with connectQueue := [entNoUserAp] }).2.countP isEntEnableCmd = 0 := by
  decide

/-- C8 amended: a popped candidate is classified enterprise (and the
enterprise identity, username and password configured and enterprise auth
enabled) exactly when its username is non-empty and its auth mode is
WPA2-enterprise or WPA2-WPA3-enterprise; it is flagged as a portal
candidate exactly when its username is non-empty and its auth mode is not
one of those two, and then the pending portal credentials are exactly the
entry's username and password. -/
theorem classification_spec (cb : Callbacks) (rb : Bool) (s : State)
    (ap : WifiApRecord) (rest : List WifiApRecord) (h : s.connectQueue = ap :: rest) :
    (Command.enterpriseEnable ap.username ap.username ap.password ∈
        (StartConnect cb rb s).2 ↔
      (¬ ap.username = "" ∧
       (ap.authmode = AuthMode.wpa2Enterprise ∨ ap.authmode = AuthMode.wpa2Wpa3Enterprise))) ∧
    ((StartConnect cb rb s).1.needsPortalLogin = true ↔
      (¬ ap.username = "" ∧
       ¬ (ap.authmode = AuthMode.wpa2Enterprise ∨ ap.authmode = AuthMode.wpa2Wpa3Enterprise))) ∧
    ((StartConnect cb rb s).1.needsPortalLogin = true →
      (StartConnect cb rb s).1.pendingPortalUsername = ap.username ∧
      (StartConnect cb rb s).1.pendingPortalPassword = ap.password) := by
  rw [startConnect_cons_eq cb rb s ap rest h]
  simp only
  refine ⟨?_, ?_, ?_⟩
  · rw [← isEnterpriseOf_eq_true_iff ap]
    cases hcb : cb.onConnect <;> cases he : isEnterpriseOf ap <;> simp [hcb, he]
  · exact needsPortalOf_eq_true_iff ap
  · intro hp
    simp [hp]

/-- C8 witness for the amended theorem: the open-auth candidate with a
stored username is flagged as a portal candidate. -/
theorem classification_spec_witness :
    (StartConnect cbAll false
        { initState with connectQueue := [portalAp] }).1.needsPortalLogin = true :=
  (classification_spec cbAll false { initState with connectQueue := [portalAp] }
      portalAp [] rfl).2.1.mpr ⟨by decide, by decide⟩

theorem buildQueue_eq (ssidList : List SsidItem) (l : List ApRecord) :
    buildQueue l ssidList = (l.filter (hasMatch ssidList)).map (candOf ssidList) := by
  induction l with
  | nil => rfl
  | cons ap t ih =>
    unfold buildQueue
    rw [List.filterMap_cons, List.filter_cons]
    cases hm : matchFor ssidList ap with
    | none =>
      have hb : hasMatch ssidList ap = false := by simp [hasMatch, hm]
      simp only [Option.map_none', hb, Bool.false_eq_true, reduceIte]
      exact ih
    | some item =>
      have hb : hasMatch ssidList ap = true := by simp [hasMatch, hm]
      have hc : candOf ssidList ap = toCandidate ap item := by simp [candOf, hm]
      simp only [Option.map_some', hb, reduceIte, List.map_cons, hc]
      simp only [List.cons.injEq, true_and]
      exact ih

theorem validSort_unique (input l₁ l₂ : List ApRecord)
    (h₁ : ValidSortOutput input l₁) (h₂ : ValidSortOutput input l₂)
    (hd : input.Pairwise rssiNe) : l₁ = l₂ := by
  have hp : List.Perm l₁ l₂ := h₁.1.symm.trans h₂.1
  have hsymm : ∀ {x y : ApRecord}, rssiNe x y → rssiNe y x := fun h e => h e.symm
  have hd₁ : l₁.Pairwise rssiNe := (h₁.1.pairwise_iff hsymm).mp hd
  have hd₂ : l₂.Pairwise rssiNe := (h₂.1.pairwise_iff hsymm).mp hd
  have hs₁ : l₁.Pairwise rssiGt :=
    (h₁.2.and hd₁).imp (fun h => lt_of_le_of_ne h.1 (Ne.symm h.2))
  have hs₂ : l₂.Pairwise rssiGt :=
    (h₂.2.and hd₂).imp (fun h => lt_of_le_of_ne h.1 (Ne.symm h.2))
  exact List.Perm.eq_of_sorted
    (fun a b _ _ hab hba => absurd hab (lt_asymm hba)) hs₁ hs₂ hp

/-- C1 counterexample: the claim demands ties between equal-strength
results broken by original scan order (a stable sort), but the code sorts
with std sort, which is not stable: for the two equal-strength matching
records below, the reversed output is also a permitted sort outcome, and
the queue built from it differs both from the queue the claim predicts
(the spec-modelled stable ranker) and from the queue built from the other
permitted outcome, so two runs on the same input may disagree. -/
theorem ranker_stable_tie_cex :
    ValidSortOutput [cexR1, cexR2] [cexR2, cexR1] ∧
    ValidSortOutput [cexR1, cexR2] [cexR1, cexR2] ∧
    buildQueue [cexR2, cexR1] cexList ≠ specStableRankQueue [cexR1, cexR2] cexList ∧
    buildQueue [cexR2, cexR1] cexList ≠ buildQueue [cexR1, cexR2] cexList := by
  refine ⟨⟨List.Perm.swap cexR2 cexR1 [], by decide⟩,
          ⟨List.Perm.refl _, by decide⟩, by decide, by decide⟩

/-- C1 amended: for every permitted outcome of the unstable sort, the
queue built on scan completion consists of exactly the scan results whose
ssid matches a known network entry (a permutation of the matching results
of the scan), mapped to candidates in an order that is sorted by
descending signal strength; the previous queue contents are discarded
whenever the scan returned at least one access point (the state then
holds the rebuilt queue minus the head popped for the connect attempt);
and when no two scan results share a signal strength all permitted
outcomes yield the same queue, so two runs on the same input agree. -/
theorem ranker_queue_spec (cb : Callbacks) (rb : Bool)
    (input sorted : List ApRecord) (ssidList : List SsidItem) (s : State)
    (hv : ValidSortOutput input sorted) :
    List.Perm (sorted.filter (hasMatch ssidList)) (input.filter (hasMatch ssidList)) ∧
    buildQueue sorted ssidList = (sorted.filter (hasMatch ssidList)).map (candOf ssidList) ∧
    (sorted.filter (hasMatch ssidList)).Pairwise rssiGe ∧
    (sorted ≠ [] →
      (HandleScanResult cb rb sorted ssidList s).1.connectQueue =
        (buildQueue sorted ssidList).drop 1) ∧
    (∀ sorted₂, ValidSortOutput input sorted₂ → input.Pairwise rssiNe →
      buildQueue sorted₂ ssidList = buildQueue sorted ssidList) := by
  refine ⟨(hv.1.filter (hasMatch ssidList)).symm, buildQueue_eq ssidList sorted,
    hv.2.filter (hasMatch ssidList), ?_, ?_⟩
  · intro hne
    by_cases hq : buildQueue sorted ssidList = []
    · rw [handleScanResult_eq_nomatch cb rb sorted ssidList s hne hq, hq]
      have hf := updateScanInterval_fields { s with connectQueue := ([] : List WifiApRecord) }
      rw [hf.2.2.1]
      simp
    · rw [handleScanResult_eq_connect cb rb sorted ssidList s hne hq]
      obtain ⟨ap, rest, hq₂⟩ : ∃ ap rest, buildQueue sorted ssidList = ap :: rest := by
        cases hb : buildQueue sorted ssidList with
        | nil => exact absurd hb hq
        | cons a r => exact ⟨a, r, rfl⟩
      have hcons : ({ s with connectQueue := buildQueue sorted ssidList } : State).connectQueue =
          ap :: rest := by
        simp only
        exact hq₂
      rw [startConnect_cons_eq cb rb _ ap rest hcons]
      simp [hq₂]
  · intro sorted₂ hv₂ hd
    rw [validSort_unique input sorted₂ sorted hv₂ hv hd]

/-- C1 witness: the amended ranker characterization on a concrete
single-result scan. -/
theorem ranker_queue_spec_witness :
    buildQueue [cexR1] cexList =
      (([cexR1] : List ApRecord).filter (hasMatch cexList)).map (candOf cexList) ∧
    (HandleScanResult cbAll false [cexR1] cexList initState).1.connectQueue =
      (buildQueue [cexR1] cexList).drop 1 := by
  have h := ranker_queue_spec cbAll false [cexR1] [cexR1] cexList initState
    ⟨List.Perm.refl _, by decide⟩
  exact ⟨h.2.1, h.2.2.2.1 (by decide)⟩

theorem strncmpEqN_zero (s t : List Char) : strncmpEqN s t 0 = true := by
  cases s <;> cases t <;> rfl

theorem strncmpEqN_s1 (x : Char) (s : List Char) (y : Char) (t : List Char) :
    strncmpEqN (x :: s) (y :: t) 1 = (x == y && strncmpEqN s t 0) := rfl

theorem strncmpEqN_s2 (x : Char) (s : List Char) (y : Char) (t : List Char) :
    strncmpEqN (x :: s) (y :: t) 2 = (x == y && strncmpEqN s t 1) := rfl

theorem strncmpEqN_s3 (x : Char) (s : List Char) (y : Char) (t : List Char) :
    strncmpEqN (x :: s) (y :: t) 3 = (x == y && strncmpEqN s t 2) := rfl

theorem strncmpEqN_s4 (x : Char) (s : List Char) (y : Char) (t : List Char) :
    strncmpEqN (x :: s) (y :: t) 4 = (x == y && strncmpEqN s t 3) := rfl

theorem strncmpEqN_s5 (x : Char) (s : List Char) (y : Char) (t : List Char) :
    strncmpEqN (x :: s) (y :: t) 5 = (x == y && strncmpEqN s t 4) := rfl

theorem strncmpEqN_s6 (x : Char) (s : List Char) (y : Char) (t : List Char) :
    strncmpEqN (x :: s) (y :: t) 6 = (x == y && strncmpEqN s t 5) := rfl

theorem strncmpEqN_s7 (x : Char) (s : List Char) (y : Char) (t : List Char) :
    strncmpEqN (x :: s) (y :: t) 7 = (x == y && strncmpEqN s t 6) := rfl

theorem digitChar_ne_dot (n : Nat) (h : n < 10) : digitChar n ≠ '.' := by
  interval_cases n <;> decide

theorem digitChar_inj (m k : Nat) (hm : m < 10) (hk : k < 10) :
    digitChar m = digitChar k ↔ m = k := by
  interval_cases m <;> interval_cases k <;> decide

theorem toDigits_lt10 {n : Nat} (h : n < 10) : toDigits n = [digitChar n] := by
  unfold toDigits
  rw [if_pos h]

theorem toDigits_mid {n : Nat} (h₁ : ¬ n < 10) (h₂ : n < 100) :
    toDigits n = [digitChar (n / 10), digitChar (n % 10)] := by
  unfold toDigits
  rw [if_neg h₁, if_pos h₂]

theorem toDigits_big {n : Nat} (h₁ : ¬ n < 10) (h₂ : ¬ n < 100) :
    toDigits n = [digitChar (n / 100), digitChar (n / 10 % 10), digitChar (n % 10)] := by
  unfold toDigits
  rw [if_neg h₁, if_neg h₂]

theorem strncmp10_iff (ip : IpAddr) (ha : ip.a ≤ 255) :
    strncmpEqN (ntoaChars ip) ("10.".toList) 3 = true ↔ ip.a = 10 := by
  have hlit : "10.".toList = ['1', '0', '.'] := rfl
  rw [hlit]
  unfold ntoaChars
  rcases Nat.lt_or_ge ip.a 10 with h | h
  · rw [toDigits_lt10 h]
    simp only [List.append_assoc, List.cons_append, List.singleton_append, List.nil_append]
    rw [strncmpEqN_s3, strncmpEqN_s2]
    simp only [Bool.and_eq_true, beq_iff_eq]
    have hne : ('.' : Char) ≠ '0' := by decide
    simp only [hne, false_and, and_false, false_iff]
    omega
  · rcases Nat.lt_or_ge ip.a 100 with h₂ | h₂
    · rw [toDigits_mid (by omega) h₂]
      simp only [List.append_assoc, List.cons_append, List.singleton_append, List.nil_append]
      rw [strncmpEqN_s3, strncmpEqN_s2, strncmpEqN_s1]
      simp only [Bool.and_eq_true, beq_iff_eq, strncmpEqN_zero, eq_self_iff_true,
        and_true, true_and]
      rw [show '1' = digitChar 1 from rfl, show '0' = digitChar 0 from rfl]
      rw [digitChar_inj _ 1 (by omega) (by omega), digitChar_inj _ 0 (by omega) (by omega)]
      omega
    · rw [toDigits_big (by omega) (by omega)]
      simp only [List.append_assoc, List.cons_append, List.singleton_append, List.nil_append]
      rw [strncmpEqN_s3, strncmpEqN_s2, strncmpEqN_s1]
      simp only [Bool.and_eq_true, beq_iff_eq]
      have hne : digitChar (ip.a % 10) ≠ '.' := digitChar_ne_dot _ (by omega)
      simp only [hne, false_and, and_false, false_iff]
      omega

theorem strncmp172_iff (ip : IpAddr) (ha : ip.a ≤ 255) :
    strncmpEqN (ntoaChars ip) ("172.".toList) 4 = true ↔ ip.a = 172 := by
  have hlit : "172.".toList = ['1', '7', '2', '.'] := rfl
  rw [hlit]
  unfold ntoaChars
  rcases Nat.lt_or_ge ip.a 10 with h | h
  · rw [toDigits_lt10 h]
    simp only [List.append_assoc, List.cons_append, List.singleton_append, List.nil_append]
    rw [strncmpEqN_s4, strncmpEqN_s3]
    simp only [Bool.and_eq_true, beq_iff_eq]
    have hne : ('.' : Char) ≠ '7' := by decide
    simp only [hne, false_and, and_false, false_iff]
    omega
  · rcases Nat.lt_or_ge ip.a 100 with h₂ | h₂
    · rw [toDigits_mid (by omega) h₂]
      simp only [List.append_assoc, List.cons_append, List.singleton_append, List.nil_append]
      rw [strncmpEqN_s4, strncmpEqN_s3, strncmpEqN_s2]
      simp only [Bool.and_eq_true, beq_iff_eq]
      have hne : ('.' : Char) ≠ '2' := by decide
      simp only [hne, false_and, and_false, false_iff]
      omega
    · rw [toDigits_big (by omega) (by omega)]
      simp only [List.append_assoc, List.cons_append, List.singleton_append, List.nil_append]
      rw [strncmpEqN_s4, strncmpEqN_s3, strncmpEqN_s2, strncmpEqN_s1]
      simp only [Bool.and_eq_true, beq_iff_eq, strncmpEqN_zero, eq_self_iff_true,
        and_true, true_and]
      rw [show '1' = digitChar 1 from rfl, show '7' = digitChar 7 from rfl,
        show '2' = digitChar 2 from rfl]
      rw [digitChar_inj _ 1 (by omega) (by omega), digitChar_inj _ 7 (by omega) (by omega),
        digitChar_inj _ 2 (by omega) (by omega)]
      omega

theorem strncmp192168_iff (ip : IpAddr) (ha : ip.a ≤ 255) (hb : ip.b ≤ 255) :
    strncmpEqN (ntoaChars ip) ("192.168".toList) 7 = true ↔
      (ip.a = 192 ∧ ip.b = 168) := by
  have hlit : "192.168".toList = ['1', '9', '2', '.', '1', '6', '8'] := rfl
  rw [hlit]
  unfold ntoaChars
  rcases Nat.lt_or_ge ip.a 10 with h | h
  · rw [toDigits_lt10 h]
    simp only [List.append_assoc, List.cons_append, List.singleton_append, List.nil_append]
    rw [strncmpEqN_s7, strncmpEqN_s6]
    simp only [Bool.and_eq_true, beq_iff_eq]
    have hne : ('.' : Char) ≠ '9' := by decide
    simp only [hne, false_and, and_false, false_iff]
    omega
  · rcases Nat.lt_or_ge ip.a 100 with h₂ | h₂
    · rw [toDigits_mid (by omega) h₂]
      simp only [List.append_assoc, List.cons_append, List.singleton_append, List.nil_append]
      rw [strncmpEqN_s7, strncmpEqN_s6, strncmpEqN_s5]
      simp only [Bool.and_eq_true, beq_iff_eq]
      have hne : ('.' : Char) ≠ '2' := by decide
      simp only [hne, false_and, and_false, false_iff]
      omega
    · rw [toDigits_big (by omega) (by omega)]
      simp only [List.append_assoc, List.cons_append, List.singleton_append, List.nil_append]
      rw [strncmpEqN_s7, strncmpEqN_s6, strncmpEqN_s5, strncmpEqN_s4]
      simp only [Bool.and_eq_true, beq_iff_eq, eq_self_iff_true, true_and]
      have htail : ∀ S : List Char,
          strncmpEqN (toDigits ip.b ++ '.' :: S) ['1', '6', '8'] 3 = true ↔ ip.b = 168 := by
        intro S
        rcases Nat.lt_or_ge ip.b 10 with hbs | hbs
        · rw [toDigits_lt10 hbs]
          simp only [List.append_assoc, List.cons_append, List.singleton_append, List.nil_append]
          rw [strncmpEqN_s3, strncmpEqN_s2]
          simp only [Bool.and_eq_true, beq_iff_eq]
          have hne : ('.' : Char) ≠ '6' := by decide
          simp only [hne, false_and, and_false, false_iff]
          omega
        · rcases Nat.lt_or_ge ip.b 100 with hbs₂ | hbs₂
          · rw [toDigits_mid (by omega) hbs₂]
            simp only [List.append_assoc, List.cons_append, List.singleton_append, List.nil_append]
            rw [strncmpEqN_s3, strncmpEqN_s2, strncmpEqN_s1]
            simp only [Bool.and_eq_true, beq_iff_eq]
            have hne : ('.' : Char) ≠ '8' := by decide
            simp only [hne, false_and, and_false, false_iff]
            omega
          · rw [toDigits_big (by omega) (by omega)]
            simp only [List.append_assoc, List.cons_append, List.singleton_append, List.nil_append]
            rw [strncmpEqN_s3, strncmpEqN_s2, strncmpEqN_s1]
            simp only [Bool.and_eq_true, beq_iff_eq, strncmpEqN_zero, eq_self_iff_true,
              and_true, true_and]
            rw [show '1' = digitChar 1 from rfl, show '6' = digitChar 6 from rfl,
              show '8' = digitChar 8 from rfl]
            rw [digitChar_inj _ 1 (by omega) (by omega),
              digitChar_inj _ 6 (by omega) (by omega),
              digitChar_inj _ 8 (by omega) (by omega)]
            omega
      simp only [htail]
      rw [show '1' = digitChar 1 from rfl, show '9' = digitChar 9 from rfl,
        show '2' = digitChar 2 from rfl]
      rw [digitChar_inj _ 1 (by omega) (by omega), digitChar_inj _ 9 (by omega) (by omega),
        digitChar_inj _ 2 (by omega) (by omega)]
      omega

theorem isPrivatePre_iff (ip : IpAddr) (ha : ip.a ≤ 255) (hb : ip.b ≤ 255) :
    isPrivatePre (ntoaChars ip) = true ↔
      (ip.a = 10 ∨ ip.a = 172 ∨ (ip.a = 192 ∧ ip.b = 168)) := by
  unfold isPrivatePre
  simp only [Bool.or_eq_true]
  rw [strncmp10_iff ip ha, strncmp192168_iff ip ha hb, strncmp172_iff ip ha]
  tauto

/-- C6 counterexample: the claim restricts login-url synthesis to the
private ranges 10.0.0.0/8, 172.16.0.0/12 and 192.168.0.0/16, but the code
tests the string prefix 172. which accepts the whole of 172.0.0.0/8: for
a resolution to 172.5.0.1, outside 172.16.0.0/12, the hijack branch still
synthesizes http://172.5.0.1/login. -/
theorem private_range_cex :
    ¬ specPrivateRange { a := 172, b := 5, c := 0, d := 1 } ∧
    (checkRedirect miuiProbeUrl
        { performOk := true, status := 200, location := none, contentLength := 0 }
        (some { a := 172, b := 5, c := 0, d := 1 }) none).1 =
      some ("http://172.5.0.1/login".toList) := by
  constructor
  · decide
  · decide

/-- C6 amended: on an HTTP 200 from the generate_204 detection url with
the probe host resolving to an address whose octets are valid, the login
url http://address/login is synthesized if and only if the address lies
in 10.0.0.0/8 or 192.168.0.0/16 or the whole of 172.0.0.0/8 (the code
checks the string prefix 172., not 172.16.0.0/12); the hijack flag is set
either way; in particular a resolution to 192.168.1.1 synthesizes
http://192.168.1.1/login, and the POST normalization leaves that url
unchanged, so the POST goes to that exact path. -/
theorem hijack_login_url_spec (loc : Option (List Char)) (clen : Int) (ip : IpAddr)
    (ha : ip.a ≤ 255) (hb : ip.b ≤ 255) :
    ((checkRedirect miuiProbeUrl
          { performOk := true, status := 200, location := loc, contentLength := clen }
          (some ip) none).1 =
        some ("http://".toList ++ ntoaChars ip ++ "/login".toList) ↔
      (ip.a = 10 ∨ ip.a = 172 ∨ (ip.a = 192 ∧ ip.b = 168))) ∧
    (checkRedirect miuiProbeUrl
        { performOk := true, status := 200, location := loc, contentLength := clen }
        (some ip) none).2 = true ∧
    (checkRedirect miuiProbeUrl
        { performOk := true, status := 200, location := none, contentLength := 0 }
        (some { a := 192, b := 168, c := 1, d := 1 }) none).1 =
      some ("http://192.168.1.1/login".toList) ∧
    postUrlOf ("http://192.168.1.1/login".toList) = "http://192.168.1.1/login".toList := by
  have hunf : checkRedirect miuiProbeUrl
      { performOk := true, status := 200, location := loc, contentLength := clen }
      (some ip) none =
      (if isPrivatePre (ntoaChars ip) then
        (some ("http://".toList ++ ntoaChars ip ++ "/login".toList), true)
       else (none, true)) := by
    unfold checkRedirect
    rw [if_pos rfl]
    rw [if_neg (by decide : ¬ ((200 : Int) = 302 ∨ (200 : Int) = 301))]
    rw [if_pos (rfl : (200 : Int) = 200)]
    rw [if_pos (by decide : "generate_204".toList <:+: miuiProbeUrl)]
  refine ⟨?_, ?_, by decide, by decide⟩
  · rw [hunf, ← isPrivatePre_iff ip ha hb]
    cases hp : isPrivatePre (ntoaChars ip) <;> simp [hp]
  · rw [hunf]
    cases hp : isPrivatePre (ntoaChars ip) <;> simp [hp]

/-- C6 witness: the amended characterization applied to the resolution
192.168.1.1 of the claim scenario. -/
theorem hijack_login_url_spec_witness :
    (checkRedirect miuiProbeUrl
        { performOk := true, status := 200, location := none, contentLength := 0 }
        (some { a := 192, b := 168, c := 1, d := 1 }) none).1 =
      some ("http://192.168.1.1/login".toList) := by
  have h := hijack_login_url_spec none 0 { a := 192, b := 168, c := 1, d := 1 }
    (by decide) (by decide)
  exact h.2.2.1

/-- C7 counterexample: the claim states every determined login url is
normalized to end in a /login path segment before the POST, but the code
skips normalization whenever the url already contains the substring login
anywhere: a login url ending in loginpage is POSTed unchanged and does
not end in /login. -/
theorem post_url_cex :
    postUrlOf ("http://portal/loginpage".toList) = "http://portal/loginpage".toList ∧
    ¬ ("/login".toList <:+ postUrlOf ("http://portal/loginpage".toList)) := by
  constructor
  · decide
  · decide

/-- C7 amended: the POST always carries the form-urlencoded content type
and the body user=...&pass=... concatenated from the portal credentials;
the url POSTed to is the login url unchanged whenever it already contains
the substring login anywhere (not necessarily ending in /login), and
otherwise it is the login url with login appended after a slash, which
then does end in a /login segment. -/
theorem portal_post_spec (loginUrl : List Char) (user pass : List Char) :
    (portalPost loginUrl user pass).contentType = "application/x-www-form-urlencoded" ∧
    (portalPost loginUrl user pass).body =
      "user=".toList ++ user ++ "&pass=".toList ++ pass ∧
    (("login".toList <:+: loginUrl) → (portalPost loginUrl user pass).url = loginUrl) ∧
    (¬ ("login".toList <:+: loginUrl) →
      "/login".toList <:+ (portalPost loginUrl user pass).url) := by
  refine ⟨rfl, rfl, ?_, ?_⟩
  · intro h
    unfold portalPost postUrlOf
    simp only
    rw [if_pos h]
  · intro h
    unfold portalPost postUrlOf
    simp only
    rw [if_neg h]
    by_cases hl : loginUrl.getLast? = some '/'
    · rw [if_pos hl]
      obtain ⟨ys, rfl⟩ := List.getLast?_eq_some_iff.mp hl
      have hsplit : "/login".toList = '/' :: "login".toList := rfl
      refine ⟨ys, ?_⟩
      rw [hsplit]
      simp
    · rw [if_neg hl]
      exact ⟨loginUrl, rfl⟩

/-- C7 witness: a login url without the substring login gets /login
appended and the POST body is the concatenation of the credentials. -/
theorem portal_post_spec_witness :
    (portalPost ("http://10.0.0.1/index".toList) ("u".toList) ("p".toList)).url =
      "http://10.0.0.1/index/login".toList ∧
    "/login".toList <:+
      (portalPost ("http://10.0.0.1/index".toList) ("u".toList) ("p".toList)).url := by
  have h := portal_post_spec ("http://10.0.0.1/index".toList) ("u".toList) ("p".toList)
  exact ⟨by decide, h.2.2.2 (by decide)⟩

/-- C9: the bounded wait reports exactly the connected condition, it
returns without consuming its timeout once connected or stopped is
observable, and after Stop the connected status is cleared and the
stopped condition set, so a subsequent wait returns false immediately. -/
theorem wait_and_stop_spec (timeoutMs : Nat) (s : State) :
    (WaitForConnected timeoutMs s = true ↔ s.connectedBit = true) ∧
    (waitReturnsImmediately s = true ↔ (s.connectedBit = true ∨ s.stoppedBit = true)) ∧
    WaitForConnected timeoutMs (Stop s).1 = false ∧
    (Stop s).1.connectedBit = false ∧
    (Stop s).1.stoppedBit = true ∧
    waitReturnsImmediately (Stop s).1 = true := by
  obtain ⟨q, rc, mn, mx, cur, wc, cbit, sbit, sdbit, ss, pw, ip, np, pu, pp⟩ := s
  simp only [WaitForConnected, waitReturnsImmediately, Stop, eventBits,
    WIFI_EVENT_CONNECTED, WIFI_EVENT_STOPPED, WIFI_EVENT_SCAN_DONE_BIT]
  cases cbit <;> cases sbit <;> cases sdbit <;> simp
  all_goals decide

/-- C10: when the station is not connected, or the driver ap-info query
fails, the RSSI query and the channel query return zero and leave the
state unchanged. -/
theorem rssi_channel_zero (s : State) (apInfo : Option ApRecord)
    (h : IsConnected s = false ∨ apInfo = none) :
    GetRssi s apInfo = (0, s) ∧ GetChannel s apInfo = (0, s) := by
  unfold GetRssi GetChannel
  rcases h with h | h
  · simp [h]
  · subst h
    constructor <;> (split <;> simp)

/-- C10 witness: both queries at a concrete disconnected state. -/
theorem rssi_channel_zero_witness :
    GetRssi initState none = (0, initState) ∧ GetChannel initState none = (0, initState) :=
  rssi_channel_zero initState none (Or.inr rfl)

end WifiStation
